import Mathlib

/-!
Verification of the wire-cut simulator (`src/wire_cut_simulation_app.py`).

The script is a single straight-line program over its top-level input
widgets.  We embed its numeric core shallowly over `ℝ`:

* the inputs become the fields of `Params`;
* `angle_rad`, `slope`, `wire_heights_at_left`, `wire_heights_at_right`,
  `wire_height_at_plate_bottom_avg`, `height_left` and `final_heights`
  mirror lines 24-73 of the script;
* the pass/fail column of the dataframe (lines 75-79) becomes `Pass` and
  `df_rows`;
* the animation callback `animate` (lines 121-128) becomes `x_start`,
  `animate_frame` and `generate_sweep`, with `np_clip` for `np.clip`.

Floating-point arithmetic is modelled by exact real arithmetic.
-/

namespace WireCut

/-- The script's top-level inputs (lines 13-21): number of plates,
plate height and width (inches), cut offset from top of stack, and the
wire angle in degrees. -/
structure Params where
  num_plates : ℕ
  plate_height : ℝ
  plate_width : ℝ
  cut_offset_top : ℝ
  wire_angle_deg : ℝ

/-- Line 24: `angle_rad = np.deg2rad(wire_angle_deg)`. -/
noncomputable def angle_rad (p : Params) : ℝ :=
  p.wire_angle_deg * Real.pi / 180

/-- Line 25: `slope = np.tan(angle_rad)`. -/
noncomputable def slope (p : Params) : ℝ :=
  Real.tan (angle_rad p)

/-- Line 47: `wire_heights_at_left = cut_offset_top`. -/
noncomputable def wire_heights_at_left (p : Params) : ℝ :=
  p.cut_offset_top

/-- Line 48: `wire_heights_at_right = cut_offset_top + slope * plate_width`. -/
noncomputable def wire_heights_at_right (p : Params) : ℝ :=
  p.cut_offset_top + slope p * p.plate_width

/-- Lines 61-67: the average of the wire height at the left and right
edges, measured relative to the bottom of plate `i`
(`plate_bottom_height = i * plate_height`). -/
noncomputable def wire_height_at_plate_bottom_avg (p : Params) (i : ℕ) : ℝ :=
  ((wire_heights_at_left p - i * p.plate_height)
    + (wire_heights_at_right p - i * p.plate_height)) / 2

/-- Lines 70-72: `height_left = min(max(0, avg), plate_height)`. -/
noncomputable def height_left (p : Params) (i : ℕ) : ℝ :=
  min (max 0 (wire_height_at_plate_bottom_avg p i)) p.plate_height

/-- Lines 58-73: the `final_heights` list, one entry per plate index
`i` in `range(num_plates)`. -/
noncomputable def final_heights (p : Params) : List ℝ :=
  (List.range p.num_plates).map (height_left p)

/-- Line 78: the `Pass` column entry, `tol_min <= h <= tol_max`. -/
def Pass (tol_min tol_max h : ℝ) : Prop :=
  tol_min ≤ h ∧ h ≤ tol_max

/-- One row of the dataframe built on lines 75-79: 1-based plate
number, final height, pass flag. -/
structure PlateResult where
  index : ℕ
  finalHeight : ℝ
  passed : Prop

/-- Lines 75-79: the dataframe rows; the script builds them
unconditionally, with no validation of the tolerance window. -/
noncomputable def df_rows (p : Params) (tol_min tol_max : ℝ) : List PlateResult :=
  (List.range p.num_plates).map
    (fun i => ⟨i + 1, height_left p i, Pass tol_min tol_max (height_left p i)⟩)

/-- `np.clip(a, lo, hi)`: `min(hi, max(a, lo))`. -/
noncomputable def np_clip (a lo hi : ℝ) : ℝ :=
  min (max a lo) hi

/-- Line 123 of `animate`: `x_start = frame * (plate_width / 100)`. -/
noncomputable def x_start (p : Params) (frame : ℕ) : ℝ :=
  frame * (p.plate_width / 100)

/-- One animation frame: the wire segment's two endpoints.  The
`animate` callback (lines 121-128) sets the wire line's data to
`x_vals = [x_start, plate_width]` and
`y_vals = clip(cut_offset_top + slope * (x_vals - x_start), 0,
plate_height * num_plates)`; nothing else in the figure is updated. -/
structure SweepFrame where
  x0 : ℝ
  x1 : ℝ
  y0 : ℝ
  y1 : ℝ

/-- Lines 121-128: the frame produced by `animate(frame)`. -/
noncomputable def animate_frame (p : Params) (frame : ℕ) : SweepFrame :=
  { x0 := x_start p frame
    x1 := p.plate_width
    y0 := np_clip (p.cut_offset_top + slope p * (x_start p frame - x_start p frame))
            0 (p.plate_height * p.num_plates)
    y1 := np_clip (p.cut_offset_top + slope p * (p.plate_width - x_start p frame))
            0 (p.plate_height * p.num_plates) }

/-- Line 130: `FuncAnimation(..., frames=101, ...)` calls `animate` on
`frame = 0, 1, ..., 100`; the whole sweep is this list of 101 frames. -/
noncomputable def generate_sweep (p : Params) : List SweepFrame :=
  (List.range 101).map (animate_frame p)

/-- The per-plate heights visible at sweep step `k`.  The plate
rectangles are drawn once, before the animation starts (lines 109-113),
each with constant height `plate_height`, and the `animate` callback
(lines 121-128) updates only the wire line, so the drawn per-plate
heights are the same at every step. -/
noncomputable def plates_at_step (p : Params) (_k : ℕ) : List ℝ :=
  (List.range p.num_plates).map (fun _ => p.plate_height)

/-- The Geometry Model's wire-height function (spec 4.1, and the line
on source line 32): `y(x) = cut_offset_top + slope * x` with
`x_start = 0`, as used for the final-height computation (line 35). -/
noncomputable def wire_y_at (p : Params) (x : ℝ) : ℝ :=
  p.cut_offset_top + slope p * x

/-- Spec-side comparison definition for the refinement claim: a
single-point midpoint-sampling evaluator, which samples the wire height
once at `x = plate_width / 2`, shifts by the plate-bottom offset and
clamps exactly as `height_left` does. -/
noncomputable def height_left_midpoint (p : Params) (i : ℕ) : ℝ :=
  min (max 0 (wire_y_at p (p.plate_width / 2) - i * p.plate_height)) p.plate_height

section Theorems

/-- At a zero wire angle the slope is zero. -/
theorem slope_of_angle_zero (p : Params) (h : p.wire_angle_deg = 0) :
    slope p = 0 := by
  simp [slope, angle_rad, h]

/-- C1: for every plate index `i < num_plates`, the width-average
evaluator yields
`final_heights[i] = min(max((cut_offset_top + (cut_offset_top +
tan(angle_rad) * plate_width)) / 2 - i * plate_height, 0), plate_height)`. -/
theorem width_average_final_height (p : Params) (i : ℕ) (hi : i < p.num_plates) :
    (final_heights p)[i]? =
      some (min (max ((p.cut_offset_top
          + (p.cut_offset_top
              + Real.tan (p.wire_angle_deg * Real.pi / 180) * p.plate_width)) / 2
          - i * p.plate_height) 0) p.plate_height) := by
  have h1 : (final_heights p)[i]? = some (height_left p i) := by
    simp [final_heights, List.getElem?_map, List.getElem?_range, hi]
  rw [h1]
  congr 1
  rw [height_left, max_comm]
  congr 2
  simp only [wire_height_at_plate_bottom_avg, wire_heights_at_left,
    wire_heights_at_right, slope, angle_rad]
  ring

/-- Witness for C1 at `num_plates = 1`, `plate_height = 5`,
`plate_width = 1`, `cut_offset_top = 1/2`, `angle = 0`, `i = 0`. -/
theorem width_average_final_height_witness :
    (final_heights ⟨1, 5, 1, 1/2, 0⟩)[0]? =
      some (min (max (((1:ℝ)/2 + (1/2 + Real.tan (0 * Real.pi / 180) * 1)) / 2
          - (0:ℕ) * 5) 0) 5) :=
  width_average_final_height ⟨1, 5, 1, 1/2, 0⟩ 0 (by decide)

/-- C10: the edge-average evaluator is extensionally equal to the
single-point midpoint-sampling evaluator: the average of the wire
heights at `x = 0` and `x = plate_width` equals the wire height at
`x = plate_width / 2`, so the clamped final heights agree for every
input and every plate index. -/
theorem edge_average_eq_midpoint (p : Params) (i : ℕ) :
    height_left p i = height_left_midpoint p i ∧
      wire_height_at_plate_bottom_avg p i =
        wire_y_at p (p.plate_width / 2) - i * p.plate_height := by
  have h : wire_height_at_plate_bottom_avg p i =
      wire_y_at p (p.plate_width / 2) - i * p.plate_height := by
    simp only [wire_height_at_plate_bottom_avg, wire_heights_at_left,
      wire_heights_at_right, wire_y_at]
    ring
  exact ⟨by rw [height_left, height_left_midpoint, h], h⟩

/-- C2: evaluation of the code at the spec's concrete scenario
`num_plates = 3, plate_height = 5, plate_width = 1, angle = 0,
cut_offset_top = 1/2, tolerance = [4.4, 4.6]`.  The spec claims every
plate gets `finalHeight = plate_height - offset = 4.5` and
`passed = true`; the code instead yields `final_heights = [1/2, 0, 0]`
(it returns the clamped wire height above each plate bottom, never
subtracting it from `plate_height` as its own comment on line 40
documents), and no plate passes. -/
theorem angle_zero_scenario_code_output :
    final_heights ⟨3, 5, 1, 1/2, 0⟩ = [1/2, 0, 0] ∧
      ((1:ℝ)/2 ≠ 9/2) ∧
      ¬ Pass (4.4) (4.6) ((1:ℝ)/2) ∧
      ¬ Pass (4.4) (4.6) 0 := by
  have hs : slope ⟨3, 5, 1, 1/2, 0⟩ = 0 := slope_of_angle_zero _ rfl
  refine ⟨?_, by norm_num, ?_, ?_⟩
  · simp only [final_heights, List.range_succ, List.range_zero,
      List.nil_append, List.cons_append, List.map_cons, List.map_nil,
      height_left, wire_height_at_plate_bottom_avg, wire_heights_at_left,
      wire_heights_at_right, hs]
    norm_num [min_def, max_def]
  · rintro ⟨h1, -⟩; norm_num at h1
  · rintro ⟨h1, -⟩; norm_num at h1

/-- C3 (clamp invariant): for any parameters with `num_plates ≥ 1`,
`plate_height > 0`, `plate_width > 0`, and every plate index
`i < num_plates`, the computed final height lies in
`[0, plate_height]`. -/
theorem final_height_clamped (p : Params) (i : ℕ)
    (hn : 1 ≤ p.num_plates) (hh : 0 < p.plate_height)
    (hw : 0 < p.plate_width) (hi : i < p.num_plates) :
    0 ≤ height_left p i ∧ height_left p i ≤ p.plate_height := by
  constructor
  · exact le_min (le_max_left 0 _) (le_of_lt hh)
  · exact min_le_right _ _

/-- Witness for C3 at `num_plates = 2, plate_height = 5,
plate_width = 1, cut_offset_top = 7, angle = 0, i = 1`. -/
theorem final_height_clamped_witness :
    0 ≤ height_left ⟨2, 5, 1, 7, 0⟩ 1 ∧ height_left ⟨2, 5, 1, 7, 0⟩ 1 ≤ 5 :=
  final_height_clamped ⟨2, 5, 1, 7, 0⟩ 1 (by decide) (by norm_num)
    (by norm_num) (by decide)

/-- C4: for every height `h` in the `final_heights` list, the `Pass`
flag holds iff `tol_min ≤ h ≤ tol_max`, both bounds inclusive; in
particular `h = tol_min` (with a well-ordered window) gives a pass, and
`tol_min = tol_max = h` gives a pass. -/
theorem pass_iff_within_tolerance (p : Params) (tol_min tol_max h : ℝ)
    (hmem : h ∈ final_heights p) :
    (Pass tol_min tol_max h ↔ tol_min ≤ h ∧ h ≤ tol_max) ∧
      (h = tol_min → tol_min ≤ tol_max → Pass tol_min tol_max h) ∧
      (tol_min = tol_max → h = tol_min → Pass tol_min tol_max h) := by
  refine ⟨Iff.rfl, ?_, ?_⟩
  · rintro rfl hle; exact ⟨le_refl _, hle⟩
  · rintro rfl rfl; exact ⟨le_refl _, le_refl _⟩

/-- Witness for C4: with `num_plates = 1, plate_height = 5,
plate_width = 1, cut_offset_top = 1/2, angle = 0` the single final
height is `1/2`, and the window `[1/2, 1/2]` passes it at exact
boundary equality. -/
theorem pass_iff_within_tolerance_witness :
    Pass (1/2) (1/2) (height_left ⟨1, 5, 1, 1/2, 0⟩ 0) := by
  have hs : slope ⟨1, 5, 1, 1/2, 0⟩ = 0 := slope_of_angle_zero _ rfl
  have hv : height_left ⟨1, 5, 1, 1/2, 0⟩ 0 = 1/2 := by
    simp only [height_left, wire_height_at_plate_bottom_avg,
      wire_heights_at_left, wire_heights_at_right, hs]
    norm_num [min_def, max_def]
  have hmem : height_left ⟨1, 5, 1, 1/2, 0⟩ 0 ∈ final_heights ⟨1, 5, 1, 1/2, 0⟩ := by
    simp [final_heights, List.range_succ]
  exact (pass_iff_within_tolerance ⟨1, 5, 1, 1/2, 0⟩ (1/2) (1/2) _ hmem).2.2
    rfl (by rw [hv])

/-- C5 (monotonicity): for a fixed positive angle (below 90 degrees)
and a positive plate height, the final height is non-increasing in the
plate index: `i < j` implies
`height_left p j ≤ height_left p i`. -/
theorem final_height_antitone (p : Params) (i j : ℕ)
    (hangle : 0 < p.wire_angle_deg) (hangle90 : p.wire_angle_deg < 90)
    (hh : 0 < p.plate_height) (hij : i < j) (hj : j < p.num_plates) :
    height_left p j ≤ height_left p i := by
  have havg : wire_height_at_plate_bottom_avg p j ≤
      wire_height_at_plate_bottom_avg p i := by
    simp only [wire_height_at_plate_bottom_avg]
    have hmul : (i : ℝ) * p.plate_height ≤ (j : ℝ) * p.plate_height := by
      have : (i : ℝ) ≤ (j : ℝ) := by exact_mod_cast le_of_lt hij
      exact mul_le_mul_of_nonneg_right this (le_of_lt hh)
    linarith
  exact min_le_min (max_le_max (le_refl 0) havg) (le_refl _)

/-- Witness for C5 at `num_plates = 3, plate_height = 5,
plate_width = 1, cut_offset_top = 7, angle = 1`, indices `0 < 2`. -/
theorem final_height_antitone_witness :
    height_left ⟨3, 5, 1, 7, 1⟩ 2 ≤ height_left ⟨3, 5, 1, 7, 1⟩ 0 :=
  final_height_antitone ⟨3, 5, 1, 7, 1⟩ 0 2 (by norm_num) (by norm_num)
    (by norm_num) (by decide) (by decide)

/-- C6: the sweep has exactly 101 frames (steps 0..100 inclusive), and
at step `k` the wire's left endpoint is at `x = k * plate_width / 100`,
its right endpoint at `x = plate_width`, and its vertical position at
each endpoint is `cut_offset_top + tan(angle_rad) * (x - x_start)`
clipped to `[0, plate_height * num_plates]`. -/
theorem sweep_structure (p : Params) (k : ℕ) (hk : k < 101) :
    (generate_sweep p).length = 101 ∧
      (generate_sweep p)[k]? = some
        { x0 := k * p.plate_width / 100
          x1 := p.plate_width
          y0 := np_clip (p.cut_offset_top
                  + Real.tan (p.wire_angle_deg * Real.pi / 180)
                      * (k * p.plate_width / 100 - k * p.plate_width / 100))
                  0 (p.plate_height * p.num_plates)
          y1 := np_clip (p.cut_offset_top
                  + Real.tan (p.wire_angle_deg * Real.pi / 180)
                      * (p.plate_width - k * p.plate_width / 100))
                  0 (p.plate_height * p.num_plates) } := by
  constructor
  · simp [generate_sweep]
  · have h1 : (generate_sweep p)[k]? = some (animate_frame p k) := by
      simp [generate_sweep, List.getElem?_map, List.getElem?_range, hk]
    rw [h1]
    congr 1
    simp only [animate_frame, x_start, slope, angle_rad]
    congr 1 <;> ring_nf

/-- Witness for C6 at step 3 of the default-like parameters
`num_plates = 3, plate_height = 5, plate_width = 1,
cut_offset_top = 1/2, angle = 0`. -/
theorem sweep_structure_witness :
    (generate_sweep ⟨3, 5, 1, 1/2, 0⟩).length = 101 ∧
      (generate_sweep ⟨3, 5, 1, 1/2, 0⟩)[3]? = some
        { x0 := (3:ℕ) * (1:ℝ) / 100
          x1 := (1:ℝ)
          y0 := np_clip ((1:ℝ)/2 + Real.tan (0 * Real.pi / 180)
                  * ((3:ℕ) * (1:ℝ) / 100 - (3:ℕ) * (1:ℝ) / 100)) 0 (5 * (3:ℕ))
          y1 := np_clip ((1:ℝ)/2 + Real.tan (0 * Real.pi / 180)
                  * ((1:ℝ) - (3:ℕ) * (1:ℝ) / 100)) 0 (5 * (3:ℕ)) } :=
  sweep_structure ⟨3, 5, 1, 1/2, 0⟩ 3 (by decide)

/-- C7 (restartability and determinism): generating the sweep twice
from equal parameters yields equal sequences, element for element;
each frame is the pure function `animate_frame` of the step and the
parameters alone, with no other input. -/
theorem sweep_restartable (p q : Params) (hpq : p = q) :
    generate_sweep p = generate_sweep q ∧
      (∀ k : ℕ, (generate_sweep p)[k]? = (generate_sweep q)[k]?) ∧
      generate_sweep p = (List.range 101).map (animate_frame p) := by
  subst hpq
  exact ⟨rfl, fun _ => rfl, rfl⟩

/-- Witness for C7 at `num_plates = 3, plate_height = 5,
plate_width = 1, cut_offset_top = 1/2, angle = 2`. -/
theorem sweep_restartable_witness :
    generate_sweep ⟨3, 5, 1, 1/2, 2⟩ = generate_sweep ⟨3, 5, 1, 1/2, 2⟩ ∧
      (∀ k : ℕ, (generate_sweep ⟨3, 5, 1, 1/2, 2⟩)[k]? =
        (generate_sweep ⟨3, 5, 1, 1/2, 2⟩)[k]?) ∧
      generate_sweep ⟨3, 5, 1, 1/2, 2⟩ =
        (List.range 101).map (animate_frame ⟨3, 5, 1, 1/2, 2⟩) :=
  sweep_restartable ⟨3, 5, 1, 1/2, 2⟩ ⟨3, 5, 1, 1/2, 2⟩ rfl

/-- C8 counterexample: the animation frames do not carry per-plate
heights recomputed to the step's cut progress.  The plate rectangles
are drawn once at full `plate_height` and `animate` never updates
them.  At the final step (100) the cut has fully progressed, so the
claim would force the per-plate heights shown at step 100 to be the
evaluator's `final_heights`; with `num_plates = 1, plate_height = 5,
plate_width = 1, cut_offset_top = 1/2, angle = 0` the drawn heights at
step 100 are `[5]` while `final_heights = [1/2]`. -/
theorem plates_at_step_not_recomputed :
    plates_at_step ⟨1, 5, 1, 1/2, 0⟩ 100 ≠ final_heights ⟨1, 5, 1, 1/2, 0⟩ := by
  have hs : slope ⟨1, 5, 1, 1/2, 0⟩ = 0 := slope_of_angle_zero _ rfl
  have h1 : plates_at_step ⟨1, 5, 1, 1/2, 0⟩ 100 = [5] := by
    simp [plates_at_step, List.range_succ]
  have h2 : final_heights ⟨1, 5, 1, 1/2, 0⟩ = [1/2] := by
    simp only [final_heights, List.range_succ, List.range_zero,
      List.nil_append, List.map_cons, List.map_nil, height_left,
      wire_height_at_plate_bottom_avg, wire_heights_at_left,
      wire_heights_at_right, hs]
    norm_num [min_def, max_def]
  rw [h1, h2]
  intro h
  have := List.head_eq_of_cons_eq h
  norm_num at this

/-- C8 amended: the per-plate heights visible during the sweep are
constant — the same list at every step, each entry equal to the full
`plate_height`; no per-step recomputation with a partial offset
occurs. -/
theorem plates_at_step_constant (p : Params) (k j : ℕ)
    (h : ℝ) (hmem : h ∈ plates_at_step p k) :
    plates_at_step p k = plates_at_step p j ∧ h = p.plate_height := by
  refine ⟨rfl, ?_⟩
  simp only [plates_at_step, List.mem_map] at hmem
  obtain ⟨i, -, hi⟩ := hmem
  exact hi.symm

/-- Witness for C8's amended statement at `num_plates = 2,
plate_height = 5, plate_width = 1, cut_offset_top = 1/2, angle = 0`,
steps 7 and 42. -/
theorem plates_at_step_constant_witness :
    plates_at_step ⟨2, 5, 1, 1/2, 0⟩ 7 = plates_at_step ⟨2, 5, 1, 1/2, 0⟩ 42 ∧
      (5:ℝ) = 5 :=
  plates_at_step_constant ⟨2, 5, 1, 1/2, 0⟩ 7 42 5
    (by simp [plates_at_step, List.range_succ])

/-- C9 counterexample: with `tol_min = 2 > 1 = tol_max` the script
raises no error and still produces one classification row per plate:
at `num_plates = 3, plate_height = 5, plate_width = 1,
cut_offset_top = 1/2, angle = 0` the dataframe has 3 rows, so output
is produced for an inverted tolerance window. -/
theorem inverted_tolerance_still_outputs :
    (1:ℝ) < 2 ∧ (df_rows ⟨3, 5, 1, 1/2, 0⟩ 2 1).length = 3 ∧
      df_rows ⟨3, 5, 1, 1/2, 0⟩ 2 1 ≠ [] := by
  refine ⟨by norm_num, ?_, ?_⟩
  · simp [df_rows]
  · simp [df_rows, List.range_succ]

/-- C9 amended: the script performs no tolerance validation and raises
no error; when `tol_max < tol_min` it still produces one `PlateResult`
per plate, and every one of them has `passed` false (the window is
empty). -/
theorem inverted_tolerance_all_fail (p : Params) (tol_min tol_max : ℝ)
    (hinv : tol_max < tol_min) :
    (df_rows p tol_min tol_max).length = p.num_plates ∧
      ∀ r ∈ df_rows p tol_min tol_max, ¬ r.passed := by
  constructor
  · simp [df_rows]
  · intro r hr
    simp only [df_rows, List.mem_map] at hr
    obtain ⟨i, -, hi⟩ := hr
    rw [← hi]
    rintro ⟨h1, h2⟩
    exact absurd (le_trans h1 h2) (not_le.mpr hinv)

/-- Witness for C9's amended statement at `num_plates = 3,
plate_height = 5, plate_width = 1, cut_offset_top = 1/2, angle = 0`
with the inverted window `[2, 1]`. -/
theorem inverted_tolerance_all_fail_witness :
    (df_rows ⟨3, 5, 1, 1/2, 0⟩ 2 1).length = 3 ∧
      ∀ r ∈ df_rows ⟨3, 5, 1, 1/2, 0⟩ 2 1, ¬ r.passed :=
  inverted_tolerance_all_fail ⟨3, 5, 1, 1/2, 0⟩ 2 1 (by norm_num)

end Theorems

end WireCut
